import Mathlib

/-!
A shallow embedding of the py-x402 client (x402/core/enums.py, x402/core/models.py,
x402/client/signer.py, x402/client/base.py) and proofs about it.

Modelling conventions:
- Python values that can appear in JSON bodies and in the dictionaries built by the
  code are modelled by `PyVal`.  Plain `Enum` members (which Python's `json.dumps`
  cannot serialize) are a separate constructor `PyVal.enum`.
- Python exceptions are modelled by `PyBaseErr` (KeyError / ValueError / TypeError;
  pydantic's ValidationError and json decode errors are ValueError subclasses) and
  `PyErr` which adds the X402PaymentRequiredError control signal.  Error message
  strings are reproduced where the code builds them by simple concatenation; for
  f-strings that render whole data structures the rendered data is kept structurally
  (`X402Msg`).
- External effects are passed explicitly: the two successive `int(time.time())`
  reads, the 32 fresh bytes drawn by `secrets.token_hex(32)`, the signature triple
  returned by `eth_account.sign_typed_data`, and the responses produced by the
  HTTP transport.
-/

/-- A Python value as it appears in parsed JSON bodies and in the dictionaries the
client builds.  `enum` models a plain `Enum` member (class name and `.value`). -/
inductive PyVal where
  | null
  | int (i : Int)
  | str (s : String)
  | enum (cls : String) (val : String)
  | list (xs : List PyVal)
  | dict (kvs : List (String × PyVal))

/-- x402/core/enums.py: `class PaymentScheme(Enum): EXACT = "exact"`. -/
inductive PaymentScheme where
  | exact
deriving DecidableEq, Repr

def PaymentScheme.value : PaymentScheme → String
  | .exact => "exact"

/-- x402/core/enums.py: `class PaymentNetwork(Enum)` with four members. -/
inductive PaymentNetwork where
  | base_sepolia
  | base_mainnet
  | ethereum_sepolia
  | ethereum_mainnet
deriving DecidableEq, Repr

def PaymentNetwork.value : PaymentNetwork → String
  | .base_sepolia => "base-sepolia"
  | .base_mainnet => "base-mainnet"
  | .ethereum_sepolia => "ethereum-sepolia"
  | .ethereum_mainnet => "ethereum-mainnet"

/-- pydantic enum validation: a wire string is accepted only if it equals the
value of some member (unknown values are rejected, not coerced). -/
def PaymentScheme.fromValue : String → Option PaymentScheme :=
  fun s => if s = "exact" then some .exact else Option.none

def PaymentNetwork.fromValue : String → Option PaymentNetwork :=
  fun s =>
    if s = "base-sepolia" then some .base_sepolia
    else if s = "base-mainnet" then some .base_mainnet
    else if s = "ethereum-sepolia" then some .ethereum_sepolia
    else if s = "ethereum-mainnet" then some .ethereum_mainnet
    else Option.none

/-- x402/core/models.py `PaymentRequirement` (pydantic BaseModel with wire aliases). -/
structure PaymentRequirement where
  scheme : PaymentScheme
  network : PaymentNetwork
  max_amount_required : String
  resource : String
  description : String
  mime_type : String
  pay_to : String
  max_timeout_seconds : Int
  asset : String
  output_schema : Option PyVal
  extra : Option PyVal

/-- Python base exceptions raised by the embedded code. -/
inductive PyBaseErr where
  | keyError (key : String)
  | valueError (msg : String)
  | typeError (msg : String)
deriving DecidableEq, Repr

/-- The message of an `X402PaymentRequiredError`: the Python code renders either
`f"Payment required: {data}"` or `f"Invalid 402 response: {e}"`; the rendered data
is kept structurally. -/
inductive X402Msg where
  | paymentRequired (data : PyVal)
  | invalid402 (cause : PyBaseErr)

/-- An exception escaping a client call: a base exception, or the
`X402PaymentRequiredError(message, requirements)` control signal. -/
inductive PyErr where
  | base (e : PyBaseErr)
  | paymentRequiredError (msg : X402Msg) (requirements : List PaymentRequirement)

/-- Python dict lookup on an insertion-ordered association list. -/
def assocGet {α : Type} : List (String × α) → String → Option α
  | [], _ => Option.none
  | (k, v) :: rest, key => if k = key then some v else assocGet rest key

/-- Python dict assignment `m[k] = v`: update in place if the key exists,
otherwise append (insertion order). -/
def dictSet {α : Type} (m : List (String × α)) (k : String) (v : α) : List (String × α) :=
  if m.any (fun kv => kv.1 = k) then
    m.map (fun kv => if kv.1 = k then (k, v) else kv)
  else m ++ [(k, v)]

/-- Characters used by Python string escaping inside `json.dumps` output: only the
backslash and the double quote occur in the strings this client builds; other
escapes are omitted from the model (all payload strings are plain ASCII). -/
def jsonEscapeChar (c : Char) : String :=
  if c = '\\' then "\\\\"
  else if c = '"' then "\\\""
  else String.singleton c

def jsonQuote (s : String) : String :=
  "\"" ++ String.join (s.data.map jsonEscapeChar) ++ "\""

mutual

/-- `json.dumps(..., separators=(",", ":"))`: compact JSON, insertion key order.
A plain `Enum` member is not JSON serializable: `json.dumps` raises
`TypeError("Object of type <cls> is not JSON serializable")`. -/
def json_dumps : PyVal → Except PyBaseErr String
  | .null => .ok "null"
  | .int i => .ok (toString i)
  | .str s => .ok (jsonQuote s)
  | .enum cls _ =>
      .error (.typeError ("Object of type " ++ cls ++ " is not JSON serializable"))
  | .list xs =>
      match json_dumpsList xs with
      | .error e => .error e
      | .ok parts => .ok ("[" ++ String.intercalate "," parts ++ "]")
  | .dict kvs =>
      match json_dumpsPairs kvs with
      | .error e => .error e
      | .ok parts => .ok ("\x7b" ++ String.intercalate "," parts ++ "\x7d")

def json_dumpsList : List PyVal → Except PyBaseErr (List String)
  | [] => .ok []
  | x :: xs =>
      match json_dumps x with
      | .error e => .error e
      | .ok s =>
        match json_dumpsList xs with
        | .error e => .error e
        | .ok rest => .ok (s :: rest)

def json_dumpsPairs : List (String × PyVal) → Except PyBaseErr (List String)
  | [] => .ok []
  | (k, v) :: kvs =>
      match json_dumps v with
      | .error e => .error e
      | .ok s =>
        match json_dumpsPairs kvs with
        | .error e => .error e
        | .ok rest => .ok ((jsonQuote k ++ ":" ++ s) :: rest)

end

/-- The RFC 4648 base64 alphabet used by `base64.b64encode`. -/
def b64Alphabet : List Char :=
  "ABCDEFGHIJKLMNOPQRSTUVWXYZabcdefghijklmnopqrstuvwxyz0123456789+/".data

def b64c (n : Nat) : Char := b64Alphabet.getD n 'A'

/-- Standard base64 over a byte list (values 0..255), with padding, no wrapping. -/
def b64chunks : List Nat → List Char
  | [] => []
  | [a] => [b64c (a / 4), b64c ((a % 4) * 16), '=', '=']
  | [a, b] => [b64c (a / 4), b64c ((a % 4) * 16 + b / 16), b64c ((b % 16) * 4), '=']
  | a :: b :: c :: rest =>
      b64c (a / 4) :: b64c ((a % 4) * 16 + b / 16) ::
      b64c ((b % 16) * 4 + c / 64) :: b64c (c % 64) :: b64chunks rest

/-- `base64.b64encode(s.encode()).decode()`: UTF-8 encode, then base64. -/
def b64encode (s : String) : String :=
  String.mk (b64chunks (s.toUTF8.toList.map (fun b => b.toNat)))

/-- Lowercase hex digits, as produced by `secrets.token_hex` and Python `hex()`. -/
def hexDigit (n : Nat) : Char := "0123456789abcdef".data.getD n 'x'

/-- Two lowercase hex characters per byte, in order (`secrets.token_hex`). -/
def hexChars : List Nat → List Char
  | [] => []
  | b :: bs => hexDigit (b / 16) :: hexDigit (b % 16) :: hexChars bs

/-- `secrets.token_hex` applied to an explicit byte draw. -/
def token_hex (bs : List Nat) : String := String.mk (hexChars bs)

def isHexDigitChar (c : Char) : Bool := "0123456789abcdef".data.contains c

/-- Hex digits of a natural number, most significant first (fuel-based). -/
def natHexFuel : Nat → Nat → String
  | 0, _ => ""
  | fuel + 1, n =>
      if n < 16 then String.singleton (hexDigit n)
      else natHexFuel fuel (n / 16) ++ String.singleton (hexDigit (n % 16))

/-- Python `hex()`: `0x` prefix, lowercase, `-0x` for negative numbers. -/
def pyHex (i : Int) : String :=
  if i < 0 then "-0x" ++ natHexFuel (i.natAbs + 1) i.natAbs
  else "0x" ++ natHexFuel (i.toNat + 1) i.toNat

/-- x402/core/models.py `PaymentPayload`. -/
structure PaymentPayload where
  x402_version : Int
  scheme : PaymentScheme
  network : PaymentNetwork
  payload : PyVal

/-- `PaymentPayload.to_header`: builds `{x402Version, scheme, network, payload}` and
feeds it to `json.dumps(..., separators=(",", ":"))` then `base64.b64encode`.
The scheme and network attributes are the plain `Enum` members. -/
def to_header (p : PaymentPayload) : Except PyBaseErr String :=
  let data := PyVal.dict
    [("x402Version", .int p.x402_version),
     ("scheme", .enum "PaymentScheme" p.scheme.value),
     ("network", .enum "PaymentNetwork" p.network.value),
     ("payload", p.payload)]
  (json_dumps data).map b64encode

/-- One entry of the token registry in x402/client/signer.py. -/
structure TokenInfo where
  human_name : String
  address : String
  name : String
  decimals : Int
  version : String
deriving DecidableEq, Repr

/-- x402/client/signer.py `KNOWN_TOKENS`. -/
def KNOWN_TOKENS : List (String × List TokenInfo) :=
  [("84532",
     [{ human_name := "usdc", address := "0x036CbD53842c5426634e7929541eC2318f3dCF7e",
        name := "USDC", decimals := 6, version := "2" }]),
   ("8453",
     [{ human_name := "usdc", address := "0x833589fCD6eDb6E08f4c7C32D4f71b54bdA02913",
        name := "USD Coin", decimals := 6, version := "2" }]),
   ("43113",
     [{ human_name := "usdc", address := "0x5425890298aed601595a70AB815c96711a31Bc65",
        name := "USD Coin", decimals := 6, version := "2" }]),
   ("43114",
     [{ human_name := "usdc", address := "0xB97EF9Ef8734C71904D8002F8b6Bc66Dd9c48a6E",
        name := "USDC", decimals := 6, version := "2" }])]

/-- `SimpleX402Signer._get_chain_id`: the fixed table from the source, with its
`.get(network, 1)` fallback.  The table maps BASE_SEPOLIA to 8453 (the source
literally says `PaymentNetwork.BASE_SEPOLIA: 8453`); the enum being closed, the
fallback to 1 is unreachable. -/
def _get_chain_id : PaymentNetwork → Int
  | .ethereum_mainnet => 1
  | .ethereum_sepolia => 11155111
  | .base_mainnet => 8453
  | .base_sepolia => 8453

/-- `SimpleX402Signer._get_token_name`: `KNOWN_TOKENS[chain_id]` raises KeyError
when the chain id is not a key; otherwise a linear scan over the token list, and a
`ValueError("Token not found for chain ... and address ...")` when no address
matches. -/
def _get_token_name (chain_id address : String) : Except PyBaseErr String :=
  match assocGet KNOWN_TOKENS chain_id with
  | Option.none => .error (.keyError chain_id)
  | some tokens =>
    match tokens.find? (fun t => t.address = address) with
    | some t => .ok t.name
    | Option.none =>
        .error (.valueError
          ("Token not found for chain " ++ chain_id ++ " and address " ++ address))

/-- `SimpleX402Signer._get_token_version`: same scan, returning the version. -/
def _get_token_version (chain_id address : String) : Except PyBaseErr String :=
  match assocGet KNOWN_TOKENS chain_id with
  | Option.none => .error (.keyError chain_id)
  | some tokens =>
    match tokens.find? (fun t => t.address = address) with
    | some t => .ok t.version
    | Option.none =>
        .error (.valueError
          ("Token not found for chain " ++ chain_id ++ " and address " ++ address))

/-- The per-call environment of `SimpleX402Signer.create_exact_payment`:
the signer account address, the 32 fresh random bytes drawn by
`secrets.token_hex(32)`, the two successive `int(time.time())` reads (the source
calls `time.time()` once for `valid_after` and again for `valid_before`), and the
signature triple returned by the external `sign_typed_data` capability. -/
structure SignerCtx where
  address : String
  nonceBytes : List Nat
  t1 : Int
  t2 : Int
  sigR : Int
  sigS : Int
  sigV : Int

/-- The intermediate structures `create_exact_payment` builds: the EIP-712 domain,
the message handed to the signing capability, and the returned payload object. -/
structure ExactPaymentParts where
  domain : PyVal
  message : PyVal
  payment : PaymentPayload

/-- `SimpleX402Signer.create_exact_payment`, lines 63-150 of signer.py, with the
EIP-712 `types` constant elided (it is a fixed literal consumed only by the
external signing capability).  Mirrors the source order: amount default, nonce,
the two clock reads, chain id, the two registry lookups (each may raise), then
domain / message / signature / payload assembly. -/
def create_exact_payment_parts (ctx : SignerCtx) (req : PaymentRequirement)
    (amount : Option String) : Except PyBaseErr ExactPaymentParts :=
  let amt := amount.getD req.max_amount_required
  let nonce := "0x" ++ token_hex ctx.nonceBytes
  let valid_after := ctx.t1 - req.max_timeout_seconds
  let valid_before := ctx.t2 + req.max_timeout_seconds
  let chain_id := _get_chain_id req.network
  match _get_token_name (toString chain_id) req.asset with
  | .error e => .error e
  | .ok token_name =>
    match _get_token_version (toString chain_id) req.asset with
    | .error e => .error e
    | .ok token_version =>
      let domain := PyVal.dict
        [("name", .str token_name), ("version", .str token_version),
         ("chainId", .int chain_id), ("verifyingContract", .str req.asset)]
      let message := PyVal.dict
        [("from", .str ctx.address), ("to", .str req.pay_to), ("value", .str amt),
         ("validAfter", .int valid_after), ("validBefore", .int valid_before),
         ("nonce", .str nonce)]
      let payload := PyVal.dict
        [("from", .str ctx.address), ("to", .str req.pay_to), ("value", .str amt),
         ("validAfter", .str (toString valid_after)),
         ("validBefore", .str (toString valid_before)),
         ("nonce", .str nonce),
         ("signature", .dict
           [("r", .str (pyHex ctx.sigR)), ("s", .str (pyHex ctx.sigS)),
            ("v", .int ctx.sigV)])]
      .ok { domain := domain, message := message,
            payment := { x402_version := 1, scheme := req.scheme,
                         network := req.network, payload := payload } }

/-- `create_exact_payment` as seen by callers: the PaymentPayload alone. -/
def create_exact_payment (ctx : SignerCtx) (req : PaymentRequirement)
    (amount : Option String) : Except PyBaseErr PaymentPayload :=
  (create_exact_payment_parts ctx req amount).map (fun p => p.payment)

/-- pydantic lax str field: only an actual string is accepted (pydantic v2 does
not coerce numbers to str). -/
def asStr : Option PyVal → Option String
  | some (.str s) => some s
  | _ => Option.none

def digitsToNat (ds : List Char) : Nat :=
  ds.foldl (fun acc c => acc * 10 + (c.toNat - 48)) 0

/-- pydantic lax int field: an int, or a decimal string (optionally signed), which
pydantic v2 coerces in lax mode.  Exotic coercions (floats, underscores) are
outside the modelled value space. -/
def strToInt (s : String) : Option Int :=
  match s.data with
  | [] => Option.none
  | '-' :: ds =>
      if ds ≠ [] ∧ ds.all Char.isDigit then some (-(Int.ofNat (digitsToNat ds)))
      else Option.none
  | ds =>
      if ds ≠ [] ∧ ds.all Char.isDigit then some (Int.ofNat (digitsToNat ds))
      else Option.none

def asIntLax : Option PyVal → Option Int
  | some (.int i) => some i
  | some (.str s) => strToInt s
  | _ => Option.none

/-- pydantic `dict | None = None` field: absent or JSON null gives None; a dict is
kept; anything else fails validation.  The inner Option is the field value, the
outer Option is validation success. -/
def asOptDict : Option PyVal → Option (Option PyVal)
  | Option.none => some Option.none
  | some .null => some Option.none
  | some (.dict kvs) => some (some (.dict kvs))
  | some _ => Option.none

/-- pydantic `str | None = None` field (PaymentRequiredResponse.error). -/
def asOptStr : Option PyVal → Option (Option String)
  | Option.none => some Option.none
  | some .null => some Option.none
  | some (.str s) => some (some s)
  | some _ => Option.none

/-- `PaymentRequirement.model_validate` on a parsed JSON value: the input must be
a dict carrying every required field under its wire alias with a valid value;
closed variants (scheme, network) reject unknown strings; extra keys are ignored
(pydantic default). -/
def validateRequirement? (v : PyVal) : Option PaymentRequirement :=
  match v with
  | .dict kvs => do
      let s ← asStr (assocGet kvs "scheme")
      let scheme ← PaymentScheme.fromValue s
      let n ← asStr (assocGet kvs "network")
      let network ← PaymentNetwork.fromValue n
      let maxAmount ← asStr (assocGet kvs "maxAmountRequired")
      let resource ← asStr (assocGet kvs "resource")
      let description ← asStr (assocGet kvs "description")
      let mimeType ← asStr (assocGet kvs "mimeType")
      let payTo ← asStr (assocGet kvs "payTo")
      let maxTimeout ← asIntLax (assocGet kvs "maxTimeoutSeconds")
      let asset ← asStr (assocGet kvs "asset")
      let outputSchema ← asOptDict (assocGet kvs "outputSchema")
      let extraField ← asOptDict (assocGet kvs "extra")
      pure { scheme := scheme, network := network, max_amount_required := maxAmount,
             resource := resource, description := description, mime_type := mimeType,
             pay_to := payTo, max_timeout_seconds := maxTimeout, asset := asset,
             output_schema := outputSchema, extra := extraField }
  | _ => Option.none

/-- `model_validate` raises a pydantic ValidationError — a ValueError subclass —
when validation fails (the detailed field report is abstracted to a fixed text). -/
def validateRequirement (v : PyVal) : Except PyBaseErr PaymentRequirement :=
  match validateRequirement? v with
  | some r => .ok r
  | Option.none => .error (.valueError "ValidationError: PaymentRequirement")

/-- The list comprehension `[PaymentRequirement.model_validate(req) for req in ...]`:
elements are validated left to right and the first failure aborts the whole
comprehension with its exception. -/
def validateAll : List PyVal → Except PyBaseErr (List PaymentRequirement)
  | [] => .ok []
  | x :: xs =>
      match validateRequirement x with
      | .error e => .error e
      | .ok r =>
        match validateAll xs with
        | .error e => .error e
        | .ok rs => .ok (r :: rs)

/-- Element-wise validation in the Option monad, for `PaymentRequiredResponse`. -/
def validateAllOpt : List PyVal → Option (List PaymentRequirement)
  | [] => some []
  | x :: xs => do
      let r ← validateRequirement? x
      let rs ← validateAllOpt xs
      pure (r :: rs)

/-- x402/core/models.py `PaymentRequiredResponse`. -/
structure PaymentRequiredResponse where
  x402_version : Int
  accepts : List PaymentRequirement
  error : Option String

/-- `PaymentRequiredResponse.model_validate`: requires `x402Version` (int, wire
alias), `accepts` (list of valid PaymentRequirement), optional `error`. -/
def validatePaymentRequiredResponse? (v : PyVal) : Option PaymentRequiredResponse :=
  match v with
  | .dict kvs => do
      let ver ← asIntLax (assocGet kvs "x402Version")
      let acceptsVal ← assocGet kvs "accepts"
      match acceptsVal with
      | .list xs => do
          let reqs ← validateAllOpt xs
          let err ← asOptStr (assocGet kvs "error")
          pure { x402_version := ver, accepts := reqs, error := err }
      | _ => Option.none
  | _ => Option.none

/-- An HTTP response as the client observes it: the status code and the result of
`response.json()` (which raises a ValueError subclass on a body that is not valid
JSON). -/
structure Response where
  status : Int
  body : Except PyBaseErr PyVal

/-- Python subscript `data["accepts"]` over the modelled value space. -/
def pySubscriptStr (v : PyVal) (k : String) : Except PyBaseErr PyVal :=
  match v with
  | .dict kvs =>
      match assocGet kvs k with
      | some x => .ok x
      | Option.none => .error (.keyError k)
  | .list _ => .error (.typeError "list indices must be integers or slices, not str")
  | .str _ => .error (.typeError "string indices must be integers")
  | _ => .error (.typeError "object is not subscriptable")

/-- Python iteration `for req in xs` over the modelled value space: lists yield
elements, strings yield single-character strings, dicts yield keys. -/
def pyIterate : PyVal → Except PyBaseErr (List PyVal)
  | .list xs => .ok xs
  | .str s => .ok (s.data.map (fun c => PyVal.str (String.singleton c)))
  | .dict kvs => .ok (kvs.map (fun kv => PyVal.str kv.1))
  | _ => .error (.typeError "object is not iterable")

/-- Which exceptions the `except (ValueError, KeyError)` clause in
`X402Client.request` catches (TypeError is not caught). -/
def isCaughtErr : PyBaseErr → Bool
  | .keyError _ => true
  | .valueError _ => true
  | .typeError _ => false

/-- The try block of `X402Client.request` for a 402 response:
`data = response.json()`, `data["accepts"]`, iterate, validate each element. -/
def try402 (resp : Response) : Except PyBaseErr (PyVal × List PaymentRequirement) := do
  let data ← resp.body
  let acceptsVal ← pySubscriptStr data "accepts"
  let items ← pyIterate acceptsVal
  let reqs ← validateAll items
  pure (data, reqs)

/-- `X402Client.request`: non-402 responses are returned unchanged; a 402 response
always raises.  The `raise X402PaymentRequiredError(f"Payment required: ...",
requirements)` sits inside the try block but is not a ValueError/KeyError, so the
except clause does not intercept it; caught failures become
`X402PaymentRequiredError(f"Invalid 402 response: ...", [])`; anything else
(e.g. a TypeError) propagates as itself. -/
def clientRequest (resp : Response) : Except PyErr Response :=
  if resp.status = 402 then
    match try402 resp with
    | .ok (data, reqs) => .error (.paymentRequiredError (.paymentRequired data) reqs)
    | .error e =>
        if isCaughtErr e then .error (.paymentRequiredError (.invalid402 e) [])
        else .error (.base e)
  else .ok resp

/-- `X402Client.pay_and_request`: build the payment, encode the header, store it
into the caller's headers dict (`headers = kwargs.get("headers", {})` aliases the
caller's mapping; the assignment `headers["X-PAYMENT"] = payment.to_header()`
evaluates its right-hand side first, so an exception there leaves the mapping
untouched), then issue the request.  `resp` is the transport's response to that
resent request; the returned pair carries the final state of the caller's headers
mapping. -/
def pay_and_request (ctx : SignerCtx) (req : PaymentRequirement)
    (amount : Option String) (headers : List (String × String)) (resp : Response) :
    Except PyErr Response × List (String × String) :=
  match create_exact_payment ctx req amount with
  | .error e => (.error (.base e), headers)
  | .ok payment =>
    match to_header payment with
    | .error e => (.error (.base e), headers)
    | .ok h => (.ok resp, dictSet headers "X-PAYMENT" h)

/-- `X402Client.auto_pay_request`: one `request`; only the
X402PaymentRequiredError signal is intercepted; an empty requirement list raises
`ValueError("No payment options available")` before the signer is touched;
otherwise the first requirement is passed to `pay_and_request` with no amount
override.  `resp1` is the transport's response to the initial request and `resp2`
its response to the resent one. -/
def auto_pay_request (ctx : SignerCtx) (resp1 resp2 : Response)
    (headers : List (String × String)) :
    Except PyErr Response × List (String × String) :=
  match clientRequest resp1 with
  | .ok r => (.ok r, headers)
  | .error (.paymentRequiredError _ reqs) =>
    match reqs with
    | [] => (.error (.base (.valueError "No payment options available")), headers)
    | r :: _ => pay_and_request ctx r Option.none headers resp2
  | .error (.base e) => (.error (.base e), headers)

/-- `to_header` never succeeds: `json.dumps` hits the `scheme` entry — a plain
`Enum` member — right after serializing `x402Version`, and raises TypeError. -/
lemma to_header_enum_fail (p : PaymentPayload) :
    to_header p = .error
      (.typeError "Object of type PaymentScheme is not JSON serializable") := by
  simp [to_header, json_dumps, json_dumpsPairs, Except.map]

/-- Whether the (chain id, asset) pair of a requirement is present in
`KNOWN_TOKENS` (the success condition of both registry lookups). -/
def tokenFound (req : PaymentRequirement) : Bool :=
  match _get_token_name (toString (_get_chain_id req.network)) req.asset with
  | .ok _ => true
  | .error _ => false

lemma token_version_of_name (c addr nm : String)
    (h : _get_token_name c addr = .ok nm) :
    ∃ ver, _get_token_version c addr = .ok ver := by
  unfold _get_token_name at h
  unfold _get_token_version
  cases hk : assocGet KNOWN_TOKENS c with
  | none => simp [hk] at h
  | some ts =>
    simp only [hk] at h ⊢
    cases hf : ts.find? (fun t => t.address = addr) with
    | none => simp [hf] at h
    | some t => simp [hf]

lemma token_name_of_found (req : PaymentRequirement) (h : tokenFound req = true) :
    ∃ nm, _get_token_name (toString (_get_chain_id req.network)) req.asset = .ok nm := by
  unfold tokenFound at h
  cases hn : _get_token_name (toString (_get_chain_id req.network)) req.asset with
  | error e => rw [hn] at h; simp at h
  | ok nm => exact ⟨nm, rfl⟩

/-- When the registry lookups succeed, `create_exact_payment_parts` returns
exactly the domain, message and payload assembled on lines 90-150 of signer.py. -/
lemma create_parts_of_found (ctx : SignerCtx) (req : PaymentRequirement)
    (a : Option String) (h : tokenFound req = true) :
    ∃ nm ver,
      create_exact_payment_parts ctx req a = .ok
        { domain := PyVal.dict
            [("name", .str nm), ("version", .str ver),
             ("chainId", .int (_get_chain_id req.network)),
             ("verifyingContract", .str req.asset)],
          message := PyVal.dict
            [("from", .str ctx.address), ("to", .str req.pay_to),
             ("value", .str (a.getD req.max_amount_required)),
             ("validAfter", .int (ctx.t1 - req.max_timeout_seconds)),
             ("validBefore", .int (ctx.t2 + req.max_timeout_seconds)),
             ("nonce", .str ("0x" ++ token_hex ctx.nonceBytes))],
          payment :=
            { x402_version := 1, scheme := req.scheme, network := req.network,
              payload := PyVal.dict
                [("from", .str ctx.address), ("to", .str req.pay_to),
                 ("value", .str (a.getD req.max_amount_required)),
                 ("validAfter", .str (toString (ctx.t1 - req.max_timeout_seconds))),
                 ("validBefore", .str (toString (ctx.t2 + req.max_timeout_seconds))),
                 ("nonce", .str ("0x" ++ token_hex ctx.nonceBytes)),
                 ("signature", .dict
                   [("r", .str (pyHex ctx.sigR)), ("s", .str (pyHex ctx.sigS)),
                    ("v", .int ctx.sigV)])] } } := by
  obtain ⟨nm, hn⟩ := token_name_of_found req h
  obtain ⟨ver, hv⟩ := token_version_of_name _ _ _ hn
  refine ⟨nm, ver, ?_⟩
  unfold create_exact_payment_parts
  simp [hn, hv]

/-- When the registry lookups succeed, `create_exact_payment` returns exactly the
payload assembled on lines 131-150 of signer.py. -/
lemma create_payload_of_found (ctx : SignerCtx) (req : PaymentRequirement)
    (a : Option String) (h : tokenFound req = true) :
    create_exact_payment ctx req a = .ok
      { x402_version := 1, scheme := req.scheme, network := req.network,
        payload := PyVal.dict
          [("from", .str ctx.address), ("to", .str req.pay_to),
           ("value", .str (a.getD req.max_amount_required)),
           ("validAfter", .str (toString (ctx.t1 - req.max_timeout_seconds))),
           ("validBefore", .str (toString (ctx.t2 + req.max_timeout_seconds))),
           ("nonce", .str ("0x" ++ token_hex ctx.nonceBytes)),
           ("signature", .dict
             [("r", .str (pyHex ctx.sigR)), ("s", .str (pyHex ctx.sigS)),
              ("v", .int ctx.sigV)])] } := by
  obtain ⟨nm, ver, hp⟩ := create_parts_of_found ctx req a h
  unfold create_exact_payment
  rw [hp]
  rfl

/-- Field extraction from the payload dict of a construction result. -/
def payloadField (r : Except PyBaseErr PaymentPayload) (k : String) : Option PyVal :=
  match r with
  | .ok p =>
    match p.payload with
    | .dict kvs => assocGet kvs k
    | _ => Option.none
  | .error _ => Option.none

/-- Field extraction from the typed-data message of a construction result. -/
def messageField (r : Except PyBaseErr ExactPaymentParts) (k : String) : Option PyVal :=
  match r with
  | .ok parts =>
    match parts.message with
    | .dict kvs => assocGet kvs k
    | _ => Option.none
  | .error _ => Option.none

/-- The requirement of the end-to-end scenario: base-sepolia USDC. -/
def req_c1 : PaymentRequirement :=
  { scheme := .exact, network := .base_sepolia, max_amount_required := "10000",
    resource := "/premium", description := "d", mime_type := "application/json",
    pay_to := "0xAbc...", max_timeout_seconds := 300,
    asset := "0x036CbD53842c5426634e7929541eC2318f3dCF7e",
    output_schema := Option.none, extra := Option.none }

/-- The wire form of `req_c1` as a server would send it inside `accepts`. -/
def reqDict_c1 : PyVal :=
  .dict [("scheme", .str "exact"), ("network", .str "base-sepolia"),
         ("maxAmountRequired", .str "10000"), ("resource", .str "/premium"),
         ("description", .str "d"), ("mimeType", .str "application/json"),
         ("payTo", .str "0xAbc..."), ("maxTimeoutSeconds", .int 300),
         ("asset", .str "0x036CbD53842c5426634e7929541eC2318f3dCF7e")]

def body_c1 : PyVal :=
  .dict [("x402Version", .int 1), ("accepts", .list [reqDict_c1]), ("error", .null)]

def resp_c1 : Response := { status := 402, body := .ok body_c1 }

/-- A requirement whose (chain id, asset) pair is present in the registry:
base-mainnet USDC (chain 8453). -/
def req_bm : PaymentRequirement :=
  { scheme := .exact, network := .base_mainnet, max_amount_required := "500",
    resource := "/r", description := "paid resource",
    mime_type := "application/json", pay_to := "0xPayee",
    max_timeout_seconds := 300,
    asset := "0x833589fCD6eDb6E08f4c7C32D4f71b54bdA02913",
    output_schema := Option.none, extra := Option.none }

def reqDict_bm : PyVal :=
  .dict [("scheme", .str "exact"), ("network", .str "base-mainnet"),
         ("maxAmountRequired", .str "500"), ("resource", .str "/r"),
         ("description", .str "paid resource"), ("mimeType", .str "application/json"),
         ("payTo", .str "0xPayee"), ("maxTimeoutSeconds", .int 300),
         ("asset", .str "0x833589fCD6eDb6E08f4c7C32D4f71b54bdA02913")]

/-- A requirement resolving to chain id 1, which is not a `KNOWN_TOKENS` key. -/
def req_em : PaymentRequirement :=
  { scheme := .exact, network := .ethereum_mainnet, max_amount_required := "700",
    resource := "/r2", description := "d2", mime_type := "application/json",
    pay_to := "0xPayee2", max_timeout_seconds := 60,
    asset := "0x036CbD53842c5426634e7929541eC2318f3dCF7e",
    output_schema := Option.none, extra := Option.none }

def reqDict_em : PyVal :=
  .dict [("scheme", .str "exact"), ("network", .str "ethereum-mainnet"),
         ("maxAmountRequired", .str "700"), ("resource", .str "/r2"),
         ("description", .str "d2"), ("mimeType", .str "application/json"),
         ("payTo", .str "0xPayee2"), ("maxTimeoutSeconds", .int 60),
         ("asset", .str "0x036CbD53842c5426634e7929541eC2318f3dCF7e")]

/-- A fixed signer environment for concrete evaluations. -/
def ctx0 : SignerCtx :=
  { address := "0xSigner", nonceBytes := List.replicate 32 0,
    t1 := 1000, t2 := 1000, sigR := 1, sigS := 2, sigV := 27 }

def tokenNotFoundMsg_c1 : String :=
  "Token not found for chain 8453 and address 0x036CbD53842c5426634e7929541eC2318f3dCF7e"

/-- Claim C1 (code bug): for the end-to-end base-sepolia scenario the claim says
`auto_pay_request` builds a payment with value "10000" and resends once; the code
instead maps base-sepolia to chain id 8453, under which the base-sepolia USDC
asset is not registered (the registry lists it under "84532"), so
`create_exact_payment` raises `ValueError("Token not found for chain 8453 and
address 0x036C...")` and `auto_pay_request` aborts without resending, for every
signer environment, amount, header dict and transport behaviour. -/
theorem claim_c1_base_sepolia_flow_aborts (ctx : SignerCtx) (a : Option String)
    (resp2 : Response) (headers : List (String × String)) :
    create_exact_payment ctx req_c1 a = .error (.valueError tokenNotFoundMsg_c1) ∧
    auto_pay_request ctx resp_c1 resp2 headers =
      (.error (.base (.valueError tokenNotFoundMsg_c1)), headers) := by
  constructor
  · rfl
  · rfl

/-- Claim C2 (code bug): `to_header` never produces a header at all.  The dict it
passes to `json.dumps` stores the raw `PaymentScheme` / `PaymentNetwork` enum
members, and `json.dumps` raises TypeError on the first of them, for every
payload; no base64 string is ever returned, so no round trip exists. -/
theorem claim_c2_to_header_raises (p : PaymentPayload) :
    to_header p = .error
      (.typeError "Object of type PaymentScheme is not JSON serializable") :=
  to_header_enum_fail p

def exIsError {α β : Type} : Except α β → Bool
  | .error _ => true
  | .ok _ => false

/-- 402 body offering `req_bm` first and `req_em` second. -/
def body_c6 : PyVal :=
  .dict [("x402Version", .int 1), ("accepts", .list [reqDict_bm, reqDict_em])]

def resp_c6 : Response := { status := 402, body := .ok body_c6 }

/-- A plain 200 response used as the transport's answer to a resent request. -/
def resp200 : Response := { status := 200, body := .error (.valueError "no json") }

/-- Claim C6 (code bug): on a 402 with a non-empty requirement list,
`auto_pay_request` does select the first requirement (here `req_bm`, whose token
lookup succeeds — had the second, `req_em`, been selected the failure would be a
KeyError), but it never performs the retry: `pay_and_request` raises TypeError
while encoding the X-PAYMENT header, so no resent response is ever returned. -/
theorem claim_c6_first_selected_but_no_resend (ctx : SignerCtx) (resp2 : Response)
    (headers : List (String × String)) :
    clientRequest resp_c6 =
      .error (.paymentRequiredError (.paymentRequired body_c6) [req_bm, req_em]) ∧
    auto_pay_request ctx resp_c6 resp2 headers =
      (.error (.base
        (.typeError "Object of type PaymentScheme is not JSON serializable")),
       headers) := by
  have hreq : clientRequest resp_c6 =
      .error (.paymentRequiredError (.paymentRequired body_c6) [req_bm, req_em]) := rfl
  refine ⟨hreq, ?_⟩
  simp [auto_pay_request, hreq, pay_and_request,
    create_payload_of_found ctx req_bm Option.none rfl, to_header_enum_fail]

/-- Claim C10, amended (corrected): whatever headers mapping the caller passes,
`pay_and_request` always aborts with an exception — either during payment
construction or, when that succeeds, while encoding the header — and because the
assignment `headers["X-PAYMENT"] = payment.to_header()` evaluates its right-hand
side first, the caller's mapping is returned exactly as it came in: no X-PAYMENT
key is ever added and every existing entry is preserved. -/
theorem claim_c10_amended_headers_untouched (ctx : SignerCtx)
    (req : PaymentRequirement) (a : Option String)
    (headers : List (String × String)) (resp : Response) :
    (pay_and_request ctx req a headers resp).2 = headers ∧
    exIsError (pay_and_request ctx req a headers resp).1 = true := by
  cases hc : create_exact_payment ctx req a with
  | error e => simp [pay_and_request, hc, exIsError]
  | ok payment => simp [pay_and_request, hc, to_header_enum_fail, exIsError]

def headers0 : List (String × String) := [("Accept", "application/json")]

/-- Claim C10 counterexample: with a caller-supplied mapping and a requirement
whose payment construction succeeds, the call returns the mapping unchanged and
no "X-PAYMENT" key is present in it afterwards — the claimed in-place insertion
never happens (the header encoding raises first). -/
theorem claim_c10_counterexample :
    (pay_and_request ctx0 req_bm Option.none headers0 resp200).2 = headers0 ∧
    assocGet (pay_and_request ctx0 req_bm Option.none headers0 resp200).2
      "X-PAYMENT" = Option.none := by
  exact ⟨rfl, rfl⟩

/-- Claim C7 (confirmed): when the initial request raises the payment-required
signal with an empty requirement list, `auto_pay_request` raises
`ValueError("No payment options available")` and returns the caller's headers
untouched — and this holds for every signer environment `ctx`, i.e. the outcome
is independent of the signer, which is never invoked. -/
theorem claim_c7_no_payment_options (ctx : SignerCtx) (resp1 resp2 : Response)
    (m : X402Msg) (headers : List (String × String))
    (h : clientRequest resp1 = .error (.paymentRequiredError m [])) :
    auto_pay_request ctx resp1 resp2 headers =
      (.error (.base (.valueError "No payment options available")), headers) := by
  unfold auto_pay_request
  rw [h]

def body_c7 : PyVal := .dict [("x402Version", .int 1), ("accepts", .list [])]

def resp_c7 : Response := { status := 402, body := .ok body_c7 }

theorem claim_c7_witness :
    clientRequest resp_c7 =
      .error (.paymentRequiredError (.paymentRequired body_c7) []) ∧
    auto_pay_request ctx0 resp_c7 resp200 [] =
      (.error (.base (.valueError "No payment options available")), []) :=
  ⟨rfl, claim_c7_no_payment_options ctx0 resp_c7 resp200
    (.paymentRequired body_c7) [] rfl⟩

/-- Claim C8 (confirmed): with no override the payload value — and the value in
the message handed to the signing capability — is `max_amount_required`; with an
override it is the override.  (`Option.getD` expresses the line
`if amount is None: amount = requirement.max_amount_required`.) -/
theorem claim_c8_amount_resolution (ctx : SignerCtx) (req : PaymentRequirement)
    (a : Option String) (h : tokenFound req = true) :
    payloadField (create_exact_payment ctx req a) "value" =
      some (.str (a.getD req.max_amount_required)) ∧
    messageField (create_exact_payment_parts ctx req a) "value" =
      some (.str (a.getD req.max_amount_required)) := by
  obtain ⟨nm, ver, hp⟩ := create_parts_of_found ctx req a h
  constructor
  · rw [create_payload_of_found ctx req a h]
    simp [payloadField, assocGet]
  · rw [hp]
    simp [messageField, assocGet]

theorem claim_c8_witness :
    tokenFound req_bm = true ∧
    payloadField (create_exact_payment ctx0 req_bm (some "123")) "value" =
      some (.str "123") ∧
    messageField (create_exact_payment_parts ctx0 req_bm (some "123")) "value" =
      some (.str "123") :=
  ⟨rfl, claim_c8_amount_resolution ctx0 req_bm (some "123") rfl⟩

/-- Claim C3, amended (corrected): the source reads the clock twice
(`valid_after = int(time.time()) - t` then `valid_before = int(time.time()) + t`),
so on a successful construction the payload carries
`validAfter = t1 - t` and `validBefore = t2 + t` for the two successive integer
clock reads `t1 ≤ t2`; the window width is `2*t + (t2 - t1)` — exactly `2*t`
precisely when the two reads coincide — and for a non-negative timeout both clock
readings lie inside `[validAfter, validBefore]`. -/
theorem claim_c3_amended_window (ctx : SignerCtx) (req : PaymentRequirement)
    (a : Option String) (h : tokenFound req = true) :
    payloadField (create_exact_payment ctx req a) "validAfter" =
      some (.str (toString (ctx.t1 - req.max_timeout_seconds))) ∧
    payloadField (create_exact_payment ctx req a) "validBefore" =
      some (.str (toString (ctx.t2 + req.max_timeout_seconds))) ∧
    (ctx.t2 + req.max_timeout_seconds) - (ctx.t1 - req.max_timeout_seconds) =
      2 * req.max_timeout_seconds + (ctx.t2 - ctx.t1) ∧
    (ctx.t1 = ctx.t2 →
      (ctx.t2 + req.max_timeout_seconds) - (ctx.t1 - req.max_timeout_seconds) =
        2 * req.max_timeout_seconds) ∧
    (0 ≤ req.max_timeout_seconds → ctx.t1 ≤ ctx.t2 →
      ctx.t1 - req.max_timeout_seconds ≤ ctx.t1 ∧ ctx.t1 ≤ ctx.t2 ∧
      ctx.t2 ≤ ctx.t2 + req.max_timeout_seconds) := by
  refine ⟨?_, ?_, by ring, ?_, ?_⟩
  · rw [create_payload_of_found ctx req a h]
    simp [payloadField, assocGet]
  · rw [create_payload_of_found ctx req a h]
    simp [payloadField, assocGet]
  · intro he
    omega
  · intro h0 h12
    omega

theorem claim_c3_witness :
    tokenFound req_bm = true ∧
    payloadField (create_exact_payment ctx0 req_bm Option.none) "validAfter" =
      some (.str (toString ((1000 : Int) - 300))) ∧
    payloadField (create_exact_payment ctx0 req_bm Option.none) "validBefore" =
      some (.str (toString ((1000 : Int) + 300))) :=
  ⟨rfl, (claim_c3_amended_window ctx0 req_bm Option.none rfl).1,
    (claim_c3_amended_window ctx0 req_bm Option.none rfl).2.1⟩

/-- Signer environment whose second clock read is one second after the first. -/
def ctx3 : SignerCtx :=
  { address := "0xSigner", nonceBytes := List.replicate 32 0,
    t1 := 1000, t2 := 1001, sigR := 1, sigS := 2, sigV := 27 }

/-- Claim C3 counterexample: a call with timeout 300 whose two clock reads are
1000 and 1001 returns validAfter = 700 and validBefore = 1301, and
1301 - 700 = 601 is not 2 * 300: the claimed exact width fails. -/
theorem claim_c3_counterexample :
    payloadField (create_exact_payment ctx3 req_bm Option.none) "validAfter" =
      some (.str "700") ∧
    payloadField (create_exact_payment ctx3 req_bm Option.none) "validBefore" =
      some (.str "1301") ∧
    ¬((1301 : Int) - 700 = 2 * 300) := by
  refine ⟨rfl, rfl, by decide⟩

lemma create_error_of_lookup (ctx : SignerCtx) (req : PaymentRequirement)
    (a : Option String) (e : PyBaseErr)
    (h : _get_token_name (toString (_get_chain_id req.network)) req.asset = .error e) :
    create_exact_payment ctx req a = .error e := by
  unfold create_exact_payment create_exact_payment_parts
  simp [h, Except.map]

/-- Claim C4, amended (corrected): when the (chain id, asset) pair is absent from
the registry, no payload is ever produced, but the error raised depends on why
the pair is absent: a known chain id with an unlisted asset raises the
TokenNotFound ValueError, while a chain id that is not a registry key at all
raises a bare KeyError from `KNOWN_TOKENS[chain_id]`. -/
theorem claim_c4_amended_absent_pair (ctx : SignerCtx) (req : PaymentRequirement)
    (a : Option String) (h : tokenFound req = false) :
    ((assocGet KNOWN_TOKENS (toString (_get_chain_id req.network))).isSome = true →
      create_exact_payment ctx req a = .error (.valueError
        ("Token not found for chain " ++ toString (_get_chain_id req.network) ++
         " and address " ++ req.asset))) ∧
    (assocGet KNOWN_TOKENS (toString (_get_chain_id req.network)) = Option.none →
      create_exact_payment ctx req a = .error
        (.keyError (toString (_get_chain_id req.network)))) := by
  unfold tokenFound at h
  constructor
  · intro hsome
    cases hk : assocGet KNOWN_TOKENS (toString (_get_chain_id req.network)) with
    | none => rw [hk] at hsome; simp at hsome
    | some ts =>
      cases hf : ts.find? (fun t => t.address = req.asset) with
      | some t => simp [_get_token_name, hk, hf] at h
      | none =>
        apply create_error_of_lookup
        simp [_get_token_name, hk, hf]
  · intro hnone
    apply create_error_of_lookup
    simp [_get_token_name, hnone]

theorem claim_c4_witness :
    tokenFound req_em = false ∧
    assocGet KNOWN_TOKENS (toString (_get_chain_id req_em.network)) = Option.none ∧
    create_exact_payment ctx0 req_em Option.none = .error (.keyError "1") :=
  ⟨rfl, rfl,
    (claim_c4_amended_absent_pair ctx0 req_em Option.none rfl).2 rfl⟩

def isTokenNotFoundErr : PyBaseErr → Bool
  | .valueError m => m.startsWith "Token not found"
  | _ => false

/-- Claim C4 counterexample: for the ethereum-mainnet requirement the resolved
chain id "1" is not a registry key, and `create_exact_payment` aborts with a bare
`KeyError("1")`, which is not the TokenNotFound ValueError the claim promises. -/
theorem claim_c4_counterexample :
    create_exact_payment ctx0 req_em Option.none = .error (.keyError "1") ∧
    isTokenNotFoundErr (.keyError "1") = false := ⟨rfl, rfl⟩

lemma hexChars_length (bs : List Nat) : (hexChars bs).length = 2 * bs.length := by
  induction bs with
  | nil => simp [hexChars]
  | cons b bs ih => simp [hexChars, ih]; ring

lemma token_hex_length (bs : List Nat) : (token_hex bs).length = 2 * bs.length := by
  simp [token_hex, String.length, hexChars_length]

lemma hexDigit_is_hex (n : Nat) (h : n < 16) : isHexDigitChar (hexDigit n) = true := by
  interval_cases n <;> rfl

lemma hexChars_all_hex (bs : List Nat) (h : ∀ b ∈ bs, b < 256) :
    (hexChars bs).all isHexDigitChar = true := by
  induction bs with
  | nil => rfl
  | cons b bs ih =>
    have hb : b < 256 := h b (by simp)
    have h1 : isHexDigitChar (hexDigit (b / 16)) = true := hexDigit_is_hex _ (by omega)
    have h2 : isHexDigitChar (hexDigit (b % 16)) = true := hexDigit_is_hex _ (by omega)
    have h3 := ih (fun x hx => h x (List.mem_cons_of_mem _ hx))
    simp [hexChars, h1, h2, h3]

lemma hexDigit_inj (m n : Nat) (hm : m < 16) (hn : n < 16)
    (h : hexDigit m = hexDigit n) : m = n := by
  interval_cases m <;> interval_cases n <;> revert h <;> decide

lemma hexChars_inj : ∀ bs cs : List Nat, (∀ b ∈ bs, b < 256) → (∀ b ∈ cs, b < 256) →
    hexChars bs = hexChars cs → bs = cs
  | [], [], _, _, _ => rfl
  | [], _ :: _, _, _, h => by simp [hexChars] at h
  | _ :: _, [], _, _, h => by simp [hexChars] at h
  | b :: bs, c :: cs, hb, hc, h => by
    have hb0 : b < 256 := hb b (by simp)
    have hc0 : c < 256 := hc c (by simp)
    simp only [hexChars, List.cons.injEq] at h
    obtain ⟨h1, h2, h3⟩ := h
    have e1 : b / 16 = c / 16 := hexDigit_inj _ _ (by omega) (by omega) h1
    have e2 : b % 16 = c % 16 := hexDigit_inj _ _ (by omega) (by omega) h2
    have hrest : bs = cs :=
      hexChars_inj bs cs (fun x hx => hb x (by simp [hx]))
        (fun x hx => hc x (by simp [hx])) h3
    have : b = c := by omega
    simp [this, hrest]

lemma nonce_inj (bs cs : List Nat) (hb : ∀ b ∈ bs, b < 256)
    (hc : ∀ b ∈ cs, b < 256) (hne : bs ≠ cs) :
    "0x" ++ token_hex bs ≠ "0x" ++ token_hex cs := by
  intro h
  apply hne
  have hdata : ("0x" ++ token_hex bs).data = ("0x" ++ token_hex cs).data := by rw [h]
  have hd : '0' :: 'x' :: hexChars bs = '0' :: 'x' :: hexChars cs := hdata
  have : hexChars bs = hexChars cs := by
    injection hd with _ hd2
    injection hd2
  exact hexChars_inj bs cs hb hc this

/-- Claim C9 (confirmed): the nonce is `"0x"` plus the 64 lowercase hex characters
of the 32 fresh bytes (the payload stores precisely this string), and two calls
whose 32-byte draws differ produce different nonces. -/
theorem claim_c9_nonce (ctx : SignerCtx) (req : PaymentRequirement)
    (a : Option String) (cs : List Nat)
    (hlen : ctx.nonceBytes.length = 32) (hrange : ∀ b ∈ ctx.nonceBytes, b < 256)
    (hclen : cs.length = 32) (hcrange : ∀ b ∈ cs, b < 256)
    (htok : tokenFound req = true) :
    (token_hex ctx.nonceBytes).length = 64 ∧
    (hexChars ctx.nonceBytes).all isHexDigitChar = true ∧
    payloadField (create_exact_payment ctx req a) "nonce" =
      some (.str ("0x" ++ token_hex ctx.nonceBytes)) ∧
    (ctx.nonceBytes ≠ cs →
      "0x" ++ token_hex ctx.nonceBytes ≠ "0x" ++ token_hex cs) ∧
    (token_hex cs).length = 64 := by
  refine ⟨?_, hexChars_all_hex _ hrange, ?_, ?_, ?_⟩
  · rw [token_hex_length, hlen]
  · rw [create_payload_of_found ctx req a htok]
    simp [payloadField, assocGet]
  · intro hne
    exact nonce_inj _ _ hrange hcrange hne
  · rw [token_hex_length, hclen]

theorem claim_c9_witness :
    (ctx0.nonceBytes.length = 32 ∧ (List.replicate 32 1).length = 32 ∧
     tokenFound req_bm = true ∧ ctx0.nonceBytes ≠ List.replicate 32 1) ∧
    (token_hex ctx0.nonceBytes).length = 64 ∧
    "0x" ++ token_hex ctx0.nonceBytes ≠ "0x" ++ token_hex (List.replicate 32 1) := by
  have h := claim_c9_nonce ctx0 req_bm Option.none (List.replicate 32 1)
    (by decide) (by decide) (by decide) (by decide) rfl
  exact ⟨⟨by decide, by decide, rfl, by decide⟩, h.1, h.2.2.2.1 (by decide)⟩

lemma validateRequirement?_dict (kvs : List (String × PyVal)) :
    validateRequirement? (.dict kvs) =
      (asStr (assocGet kvs "scheme")).bind (fun s =>
      (PaymentScheme.fromValue s).bind (fun scheme =>
      (asStr (assocGet kvs "network")).bind (fun n =>
      (PaymentNetwork.fromValue n).bind (fun network =>
      (asStr (assocGet kvs "maxAmountRequired")).bind (fun maxAmount =>
      (asStr (assocGet kvs "resource")).bind (fun resource =>
      (asStr (assocGet kvs "description")).bind (fun description =>
      (asStr (assocGet kvs "mimeType")).bind (fun mimeType =>
      (asStr (assocGet kvs "payTo")).bind (fun payTo =>
      (asIntLax (assocGet kvs "maxTimeoutSeconds")).bind (fun maxTimeout =>
      (asStr (assocGet kvs "asset")).bind (fun asset =>
      (asOptDict (assocGet kvs "outputSchema")).bind (fun outputSchema =>
      (asOptDict (assocGet kvs "extra")).bind (fun extraField =>
      some { scheme := scheme, network := network, max_amount_required := maxAmount,
             resource := resource, description := description, mime_type := mimeType,
             pay_to := payTo, max_timeout_seconds := maxTimeout, asset := asset,
             output_schema := outputSchema,
             extra := extraField }))))))))))))) := rfl

lemma validate_error_shape (x : PyVal) (e : PyBaseErr)
    (h : validateRequirement x = .error e) :
    e = .valueError "ValidationError: PaymentRequirement" := by
  unfold validateRequirement at h
  cases hv : validateRequirement? x with
  | some r => simp [hv] at h
  | none => simp [hv] at h; exact h.symm

lemma validateAll_error (xs : List PyVal) (e : PyBaseErr)
    (h : validateAll xs = .error e) :
    e = .valueError "ValidationError: PaymentRequirement" := by
  induction xs with
  | nil => simp [validateAll] at h
  | cons x xs ih =>
    unfold validateAll at h
    cases hx : validateRequirement x with
    | error e2 =>
      simp [hx] at h
      rw [← h]
      exact validate_error_shape x e2 hx
    | ok r =>
      cases hrest : validateAll xs with
      | error e3 =>
        simp [hx, hrest] at h
        subst h
        exact ih hrest
      | ok rs => simp [hx, hrest] at h

lemma validateAll_length (xs : List PyVal) (rs : List PaymentRequirement)
    (h : validateAll xs = .ok rs) : rs.length = xs.length := by
  induction xs generalizing rs with
  | nil =>
    simp [validateAll] at h
    simp [← h]
  | cons x xs ih =>
    unfold validateAll at h
    cases hx : validateRequirement x with
    | error e => simp [hx] at h
    | ok r =>
      cases hrest : validateAll xs with
      | error e3 => simp [hx, hrest] at h
      | ok rs2 =>
        simp [hx, hrest] at h
        rw [← h]
        simp [ih rs2 hrest]

set_option maxHeartbeats 1600000 in
/-- Claim C5, amended (corrected): `request` never validates the body as a
`PaymentRequiredResponse` — it only extracts `data["accepts"]` and validates the
elements.  For a 402 whose body is a JSON object: if `accepts` is a list whose
elements all validate, the PaymentRequired signal carries one parsed requirement
per element, in order (`x402Version` is never checked); if `accepts` is missing
or an element fails validation — including any scheme or network value outside
the closed variant sets, which is rejected outright — the signal is the
malformed-response error with an empty list; and a body that is not valid JSON
also yields the malformed-response signal carrying the decode error. -/
theorem claim_c5_amended_accepts_only
    (resp respBad : Response) (kvs rkvs rkvs2 : List (String × PyVal))
    (xs : List PyVal) (rs : List PaymentRequirement) (e : PyBaseErr)
    (s n m : String)
    (hst : resp.status = 402) (hbody : resp.body = .ok (.dict kvs))
    (hstBad : respBad.status = 402)
    (hbodyBad : respBad.body = .error (.valueError m)) :
    (assocGet kvs "accepts" = some (.list xs) → validateAll xs = .ok rs →
      clientRequest resp =
        .error (.paymentRequiredError (.paymentRequired (.dict kvs)) rs) ∧
      rs.length = xs.length) ∧
    (assocGet kvs "accepts" = Option.none →
      clientRequest resp =
        .error (.paymentRequiredError (.invalid402 (.keyError "accepts")) [])) ∧
    (assocGet kvs "accepts" = some (.list xs) → validateAll xs = .error e →
      clientRequest resp =
        .error (.paymentRequiredError (.invalid402 e) [])) ∧
    (assocGet rkvs "scheme" = some (.str s) → s ≠ "exact" →
      exIsError (validateRequirement (.dict rkvs)) = true) ∧
    (assocGet rkvs2 "network" = some (.str n) →
      PaymentNetwork.fromValue n = Option.none →
      exIsError (validateRequirement (.dict rkvs2)) = true) ∧
    clientRequest respBad =
      .error (.paymentRequiredError (.invalid402 (.valueError m)) []) := by
  refine ⟨?_, ?_, ?_, ?_, ?_, ?_⟩
  · intro hacc hval
    refine ⟨?_, validateAll_length xs rs hval⟩
    simp [clientRequest, hst, try402, hbody, pySubscriptStr, hacc, pyIterate,
      hval, Bind.bind, Except.bind, isCaughtErr, pure, Except.pure]
  · intro hacc
    simp [clientRequest, hst, try402, hbody, pySubscriptStr, hacc,
      Bind.bind, Except.bind, isCaughtErr]
  · intro hacc hval
    have he := validateAll_error xs e hval
    simp [clientRequest, hst, try402, hbody, pySubscriptStr, hacc, pyIterate,
      hval, Bind.bind, Except.bind, isCaughtErr, he]
  · intro hsch hne
    have hv : validateRequirement? (.dict rkvs) = Option.none := by
      rw [validateRequirement?_dict, hsch]
      simp [asStr, PaymentScheme.fromValue, hne, bind, Option.bind]
    simp [validateRequirement, hv, exIsError]
  · intro hnet hfv
    have hv : validateRequirement? (.dict rkvs2) = Option.none := by
      rw [validateRequirement?_dict]
      cases h1 : asStr (assocGet rkvs2 "scheme") with
      | none => simp
      | some s2 =>
        simp only [Option.some_bind]
        cases h2 : PaymentScheme.fromValue s2 with
        | none => simp
        | some sch =>
          simp only [Option.some_bind]
          rw [hnet]
          simp [asStr, hfv]
    simp [validateRequirement, hv, exIsError]
  · simp [clientRequest, hstBad, try402, hbodyBad, Bind.bind, Except.bind,
      isCaughtErr]

def body_c5 : PyVal := .dict [("accepts", .list [])]

def resp_c5 : Response := { status := 402, body := .ok body_c5 }

/-- Claim C5 counterexample: the body `{"accepts": []}` fails to validate as a
`PaymentRequiredResponse` (the required `x402Version` field is missing), yet
`request` signals PaymentRequired rather than the malformed-response error —
the response-level model is never consulted. -/
theorem claim_c5_counterexample :
    validatePaymentRequiredResponse? body_c5 = Option.none ∧
    clientRequest resp_c5 =
      .error (.paymentRequiredError (.paymentRequired body_c5) []) :=
  ⟨rfl, rfl⟩

def bodyKvs_c1 : List (String × PyVal) :=
  [("x402Version", PyVal.int 1), ("accepts", PyVal.list [reqDict_c1]),
   ("error", PyVal.null)]

def resp_badjson : Response :=
  { status := 402,
    body := .error (.valueError "Expecting value: line 1 column 1 (char 0)") }

theorem claim_c5_witness :
    (resp_c1.status = 402 ∧ resp_c1.body = .ok (.dict bodyKvs_c1) ∧
     resp_badjson.status = 402 ∧
     resp_badjson.body =
       .error (.valueError "Expecting value: line 1 column 1 (char 0)")) ∧
    (assocGet bodyKvs_c1 "accepts" = some (.list [reqDict_c1]) →
     validateAll [reqDict_c1] = .ok [req_c1] →
     clientRequest resp_c1 =
       .error (.paymentRequiredError (.paymentRequired (.dict bodyKvs_c1)) [req_c1]) ∧
     ([req_c1] : List PaymentRequirement).length = ([reqDict_c1] : List PyVal).length) := by
  refine ⟨⟨rfl, rfl, rfl, rfl⟩, ?_⟩
  exact (claim_c5_amended_accepts_only resp_c1 resp_badjson bodyKvs_c1
    [("scheme", PyVal.str "foo")]
    [("scheme", PyVal.str "exact"), ("network", PyVal.str "solana")]
    [reqDict_c1] [req_c1] (.valueError "ValidationError: PaymentRequirement")
    "foo" "solana" "Expecting value: line 1 column 1 (char 0)"
    rfl rfl rfl rfl).1
